import Mathlib

/-
Verification of the gcb circuit-breaker / retry library (calvernaz/gcb).

The development shallowly embeds the two algorithmic cores of the repository:

 * the circuit-breaker state machine of breaker.go (State, Counts, Breaker,
   NewCircuitBreaker, beforeRequest, afterRequest, toNewGeneration, setState,
   currentState, defaultReadyToTrip, NewBreaker), and

 * the retry loop of circuit_breaker.go RoundTrip together with the retry
   policy retryPolicy / DefaultRetryPolicy from the retrier source and
   breaker.go Execute.

Modelling conventions, stated once here:

 * Go time.Time is modelled as a Nat of wall-clock nanoseconds, with 0
   standing for the Go zero time: t.IsZero() becomes t = 0 and
   a.Before(b) becomes a < b.  time.Duration values are Nat nanoseconds
   (all durations the breaker is configured with are nonnegative).

 * The uint32 counters of Counts, the uint64 generation counter and loop
   indices are modelled as Nat.  No claim under verification concerns
   32/64-bit wraparound, which would need on the order of 2^32 requests
   inside a single generation (resp. 2^64 state transitions).

 * Mutation of the Breaker fields (state, generation, counts, expiry) under
   its mutex is modelled as explicit state passing over BreakerState.  The
   Go methods that read the receiver after mutating it are modelled as
   functions returning the updated BreakerState, from which callers read
   the same fields.  The onStateChange observability callback has no effect
   on the breaker fields and is omitted.

 * Effectful inputs of the retry loop (the transport, the rate limiter,
   the request context) are modelled as oracle functions indexed by the
   attempt number: Env.transport k is the outcome of the k-th call of
   c.RoundTripper.RoundTrip, Env.limiterAllow k the k-th r.Limiter.Allow()
   result, Env.ctxDone k whether ctx.Err() is non-nil at the k-th
   retry-policy check, and Env.cancelDuringWait k whether the context done
   channel fires before the backoff timer in the select after attempt k.
   The backoff duration itself only determines real elapsed time, which the
   cancelDuringWait oracle abstracts, so it is not computed here (and
   DefaultBackoff is float64 arithmetic, see the results for that claim).
-/

namespace GCB

/-- Go: type State int8 with Open = iota + 1, so Open = 1, HalfOpen = 2,
Close = 3.  Constructor Zero models the int8 zero value State(0) that
new(Breaker) produces; it is none of the three named constants, and every
switch statement in the source sends it to its default branch, exactly as
the wildcard match arms below do. -/
inductive State where
  | Zero
  | Open
  | HalfOpen
  | Close
deriving DecidableEq

/-- Go: struct Counts, the five uint32 request/outcome counters. -/
structure Counts where
  requests : Nat
  totalSuccesses : Nat
  totalFailures : Nat
  consecutiveSuccesses : Nat
  consecutiveFailures : Nat
deriving DecidableEq

/-- Go: func (c *Counts) onRequest, increments Requests. -/
def Counts.onRequest (c : Counts) : Counts :=
  { c with requests := c.requests + 1 }

/-- Go: func (c *Counts) onSuccess. -/
def Counts.onSuccess (c : Counts) : Counts :=
  { c with
    totalSuccesses := c.totalSuccesses + 1
    consecutiveSuccesses := c.consecutiveSuccesses + 1
    consecutiveFailures := 0 }

/-- Go: func (c *Counts) onFailure. -/
def Counts.onFailure (c : Counts) : Counts :=
  { c with
    totalFailures := c.totalFailures + 1
    consecutiveFailures := c.consecutiveFailures + 1
    consecutiveSuccesses := 0 }

/-- Go: func (c *Counts) clear, zeroes all five fields. -/
def Counts.clear (_ : Counts) : Counts :=
  Counts.mk 0 0 0 0 0

/-- The mutable fields of the Go Breaker struct that its mutex guards. -/
structure BreakerState where
  state : State
  generation : Nat
  counts : Counts
  expiry : Nat
deriving DecidableEq

/-- The immutable configuration fields of the Go Breaker struct, as set by
NewCircuitBreaker (after defaulting). -/
structure BreakerConfig where
  maxRequests : Nat
  interval : Nat
  timeout : Nat
  readyToTrip : Counts → Bool

/-- Go: the Settings argument of NewCircuitBreaker.  A nil ReadyToTrip
callback is modelled as none. -/
structure Settings where
  maxRequests : Nat
  interval : Nat
  timeout : Nat
  readyToTrip : Option (Counts → Bool)

/-- Go: const defaultTimeout = time.Duration(60) * time.Second, in
nanoseconds. -/
def defaultTimeout : Nat := 60 * 1000000000

/-- Go: func defaultReadyToTrip, counts.ConsecutiveFailures > 5. -/
def defaultReadyToTrip (c : Counts) : Bool :=
  5 < c.consecutiveFailures

/-- Go: the errors handled by this development.  openState and
tooManyRequests are ErrOpenState and ErrTooManyRequests of breaker.go;
rateLimitExceeded is the rateLimitExceeded error of circuit_breaker.go;
ctxErr stands for the non-nil ctx.Err() value (context.Canceled or
context.DeadlineExceeded); transportErr wraps an error returned by the
underlying transport; maxRetriesReached models the
"errMaxRetriesReached ... giving up after N attempts" error built in
RoundTrip, carrying the attempt count it names. -/
inductive GoError where
  | openState
  | tooManyRequests
  | rateLimitExceeded
  | ctxErr
  | transportErr (msg : String)
  | maxRetriesReached (attempts : Nat)
deriving DecidableEq

/-- Go: func (cb *Breaker) toNewGeneration(now time.Time).  Increments the
generation, clears the counts, and recomputes expiry by the switch on the
(unchanged) state: Close keeps the zero expiry when no interval is
configured and otherwise expires after the interval; Open expires after
the timeout; the default branch (HalfOpen, and the zero state) clears
expiry. -/
def toNewGeneration (cfg : BreakerConfig) (now : Nat) (b : BreakerState) : BreakerState :=
  BreakerState.mk b.state (b.generation + 1) (b.counts.clear)
    (match b.state with
     | State.Close => if cfg.interval = 0 then 0 else now + cfg.interval
     | State.Open => now + cfg.timeout
     | _ => 0)

/-- Go: func (cb *Breaker) setState(state State, now time.Time).  A no-op
when the state is unchanged; otherwise switches the state and starts a new
generation.  The onStateChange callback only observes the change. -/
def setState (cfg : BreakerConfig) (s : State) (now : Nat) (b : BreakerState) : BreakerState :=
  if b.state = s then b
  else toNewGeneration cfg now { b with state := s }

/-- Go: func (cb *Breaker) currentState(now time.Time).  Lazily resolves
the effective state against the clock: a Closed breaker whose non-zero
expiry has passed starts a new generation; an Open breaker whose expiry
has passed becomes HalfOpen.  Go returns the pair (cb.state,
cb.generation) after this in-place update; the model returns the updated
breaker, from which callers read those two fields. -/
def currentState (cfg : BreakerConfig) (now : Nat) (b : BreakerState) : BreakerState :=
  match b.state with
  | State.Close => if b.expiry ≠ 0 ∧ b.expiry < now then toNewGeneration cfg now b else b
  | State.Open => if b.expiry < now then setState cfg State.HalfOpen now b else b
  | _ => b

/-- Go: func (cb *Breaker) beforeRequest().  Resolves the state, then:
Open is rejected with ErrOpenState; HalfOpen at or over maxRequests
outstanding requests is rejected with ErrTooManyRequests; otherwise
Counts.Requests is incremented.  Returns the updated breaker together
with the generation and error that Go returns. -/
def beforeRequest (cfg : BreakerConfig) (now : Nat) (b : BreakerState) :
    BreakerState × Nat × Option GoError :=
  let b1 := currentState cfg now b
  if b1.state = State.Open then
    (b1, b1.generation, some GoError.openState)
  else if b1.state = State.HalfOpen ∧ cfg.maxRequests ≤ b1.counts.requests then
    (b1, b1.generation, some GoError.tooManyRequests)
  else
    ({ b1 with counts := b1.counts.onRequest }, b1.generation, none)

/-- Go: func (cb *Breaker) onSuccess(state State, now time.Time). -/
def BreakerState.onSuccess (cfg : BreakerConfig) (state : State) (now : Nat)
    (b : BreakerState) : BreakerState :=
  match state with
  | State.Close => { b with counts := b.counts.onSuccess }
  | State.HalfOpen =>
    let b1 := { b with counts := b.counts.onSuccess }
    if cfg.maxRequests ≤ b1.counts.consecutiveSuccesses then
      setState cfg State.Close now b1
    else b1
  | _ => b

/-- Go: func (cb *Breaker) onFailure(state State, now time.Time). -/
def BreakerState.onFailure (cfg : BreakerConfig) (state : State) (now : Nat)
    (b : BreakerState) : BreakerState :=
  match state with
  | State.Close =>
    let b1 := { b with counts := b.counts.onFailure }
    if cfg.readyToTrip b1.counts = true then
      setState cfg State.Open now b1
    else b1
  | State.HalfOpen => setState cfg State.Open now b
  | _ => b

/-- Go: func (cb *Breaker) afterRequest(before uint64, success bool).
Re-resolves the state; a stale generation returns immediately, otherwise
the outcome is applied via onSuccess or onFailure at the resolved state. -/
def afterRequest (cfg : BreakerConfig) (now : Nat) (before : Nat) (success : Bool)
    (b : BreakerState) : BreakerState :=
  let b1 := currentState cfg now b
  if b1.generation ≠ before then b1
  else if success then BreakerState.onSuccess cfg b1.state now b1
  else BreakerState.onFailure cfg b1.state now b1

/-- Go: func NewCircuitBreaker(st Settings).  cb := new(Breaker) zeroes
every field, so the initial mutable state is (State(0), 0, zero counts,
zero time); the configuration fields are defaulted (MaxRequests 0 becomes
1, Timeout 0 becomes defaultTimeout, a nil ReadyToTrip becomes
defaultReadyToTrip; Name and OnStateChange do not affect the fields
modelled here) and then cb.toNewGeneration(time.Now()) runs once. -/
def newCircuitBreaker (st : Settings) (now : Nat) : BreakerConfig × BreakerState :=
  let cfg : BreakerConfig :=
    BreakerConfig.mk
      (if st.maxRequests = 0 then 1 else st.maxRequests)
      st.interval
      (if st.timeout = 0 then defaultTimeout else st.timeout)
      (match st.readyToTrip with
       | none => defaultReadyToTrip
       | some f => f)
  let b0 : BreakerState := BreakerState.mk State.Zero 0 (Counts.mk 0 0 0 0 0) 0
  (cfg, toNewGeneration cfg now b0)

/-- The ReadyToTrip callback that Go func NewBreaker passes in its
Settings.  The source computes failureRatio :=
float64(counts.TotalFailures) / float64(counts.Requests) and returns
counts.Requests >= 3 && failureRatio >= 0.6.  Modelled with the exact
comparison 3 * requests <= 5 * totalFailures, which for requests > 0 is
failureRatio >= 3/5; for requests = 0 both the Go conjunction (NaN
comparisons are false and 0 >= 3 fails) and the model return false.  No
theorem below depends on the rounding boundary of the float64 division. -/
def newBreakerReadyToTrip (c : Counts) : Bool :=
  decide (3 ≤ c.requests) && decide (3 * c.requests ≤ 5 * c.totalFailures)

/-- Go: func NewBreaker() calls NewCircuitBreaker with Timeout 45 seconds
and the failure-ratio ReadyToTrip above (Name and OnStateChange omitted,
see newCircuitBreaker). -/
def NewBreaker (now : Nat) : BreakerConfig × BreakerState :=
  newCircuitBreaker (Settings.mk 0 0 (45 * 1000000000) (some newBreakerReadyToTrip)) now

/-- One locked breaker entry point, for stating properties of arbitrary
operation sequences: Go beforeRequest or afterRequest called at some
time. -/
inductive BreakerOp where
  | before (now : Nat)
  | after (now : Nat) (gen : Nat) (success : Bool)

/-- The effect of one BreakerOp on the breaker fields. -/
def stepOp (cfg : BreakerConfig) (op : BreakerOp) (b : BreakerState) : BreakerState :=
  match op with
  | BreakerOp.before now => (beforeRequest cfg now b).1
  | BreakerOp.after now g s => afterRequest cfg now g s b

/-- A sequence of breaker operations, applied left to right. -/
def runOps (cfg : BreakerConfig) (ops : List BreakerOp) (b : BreakerState) : BreakerState :=
  ops.foldl (fun acc op => stepOp cfg op acc) b

/-- Go: the relevant field of *http.Response, its StatusCode (a Go int). -/
structure HttpResponse where
  statusCode : Int
deriving DecidableEq

/-- Oracles for the effectful inputs of the retry loop, indexed by the
attempt number (the loop variable i of RoundTrip): the transport result,
the r.Limiter.Allow() result inside retryPolicy, whether ctx.Err() is
non-nil at the DefaultRetryPolicy check, and whether the context done
channel wins the select against the backoff timer after the attempt. -/
structure Env where
  transport : Nat → Except String HttpResponse
  limiterAllow : Nat → Bool
  ctxDone : Nat → Bool
  cancelDuringWait : Nat → Bool

/-- The nullable response the Go pair (resp, err) carries for a transport
outcome. -/
def respOf (r : Except String HttpResponse) : Option HttpResponse :=
  match r with
  | Except.ok resp => some resp
  | Except.error _ => none

/-- The nullable error the Go pair (resp, err) carries for a transport
outcome. -/
def errOf (r : Except String HttpResponse) : Option GoError :=
  match r with
  | Except.ok _ => none
  | Except.error e => some (GoError.transportErr e)

/-- Go, in the !shouldRetry exit of the RoundTrip loop: if checkErr is
non-nil it replaces the transport error, else the transport error (or nil)
stands. -/
def errAfterCheck (checkErr : Option GoError) (r : Except String HttpResponse) :
    Option GoError :=
  match checkErr with
  | some e => some e
  | none => errOf r

/-- Go: func DefaultRetryPolicy(ctx, resp, err).  Never retries once the
context is done (returning ctx.Err()); retries any transport error
(returning it as checkErr); retries status 0 and the 500 range except
501; accepts everything else. -/
def DefaultRetryPolicy (ctxDone : Bool) (r : Except String HttpResponse) :
    Bool × Option GoError :=
  if ctxDone = true then (false, some GoError.ctxErr)
  else
    match r with
    | Except.error e => (true, some (GoError.transportErr e))
    | Except.ok resp =>
      if resp.statusCode = 0 ∨ (500 ≤ resp.statusCode ∧ resp.statusCode ≠ 501) then
        (true, none)
      else (false, none)

/-- Go: func (r *Retrier) retryPolicy(ctx, res, err).  First consumes a
rate-limiter token; a denial fails the check with rateLimitExceeded.
Otherwise defers to r.CheckRetry, which NewRetrier sets to
DefaultRetryPolicy. -/
def retryPolicy (limiterAllow : Bool) (ctxDone : Bool) (r : Except String HttpResponse) :
    Bool × Option GoError :=
  if limiterAllow = false then (false, some GoError.rateLimitExceeded)
  else DefaultRetryPolicy ctxDone r

/-- The visible result of the retry loop: the (resp, err) pair it returns
to breaker Execute, plus a ghost count of how many times the underlying
transport was invoked. -/
structure LoopResult where
  resp : Option HttpResponse
  err : Option GoError
  attempts : Nat
deriving DecidableEq

/-- The for-loop of circuit RoundTrip in circuit_breaker.go (the closure
passed to c.breaker.Execute), from loop index i on.  remain is the value
RetryMax - i that the source recomputes each iteration; it is passed
structurally, decreasing by one exactly as i increases by one, and the
entry point runLoop starts it at RetryMax - 0.  Each iteration: invoke the
transport, classify via retryPolicy; a non-retry classification returns
(resp, checkErr-or-err) at once; an exhausted budget (remain = 0) breaks
with the giving-up error naming RetryMax + 1 attempts and the last
response; otherwise the body is drained (I/O only), the backoff wait is
computed, and the select either aborts with (nil, ctx.Err()) when the
context fires first or proceeds to the next iteration. -/
def loopAux (env : Env) (retryMax : Nat) (remain i : Nat) : LoopResult :=
  if (retryPolicy (env.limiterAllow i) (env.ctxDone i) (env.transport i)).1 = false then
    LoopResult.mk (respOf (env.transport i))
      (errAfterCheck (retryPolicy (env.limiterAllow i) (env.ctxDone i) (env.transport i)).2
        (env.transport i))
      (i + 1)
  else
    match remain with
    | 0 =>
      LoopResult.mk (respOf (env.transport i))
        (some (GoError.maxRetriesReached (retryMax + 1))) (i + 1)
    | Nat.succ r =>
      if env.cancelDuringWait i = true then
        LoopResult.mk none (some GoError.ctxErr) (i + 1)
      else loopAux env retryMax r (i + 1)

/-- The RoundTrip loop from its start: i = 0, remain = RetryMax. -/
def runLoop (env : Env) (retryMax : Nat) : LoopResult :=
  loopAux env retryMax retryMax 0

/-- The outcome of one breaker Execute (and of circuit RoundTrip): the
returned (resp, err) pair, the ghost transport-invocation count, and the
breaker fields afterwards. -/
structure ExecOutcome where
  resp : Option HttpResponse
  err : Option GoError
  attempts : Nat
  breaker : BreakerState
deriving DecidableEq

/-- Go: func (cb *Breaker) Execute(req) of breaker.go, applied to the pure
outcome of the request closure.  beforeRequest runs at time t1; a
rejection returns (nil, err) at once with the closure never invoked.
Otherwise the closure outcome is recorded at time t2 via
afterRequest(generation, err == nil) and returned.  The panic/recover arm
is dead in this model (the closure never panics). -/
def Execute (cfg : BreakerConfig) (t1 t2 : Nat) (b : BreakerState) (req : LoopResult) :
    ExecOutcome :=
  match beforeRequest cfg t1 b with
  | (b1, _, some e) => ExecOutcome.mk none (some e) 0 b1
  | (b1, gen, none) =>
    ExecOutcome.mk req.resp req.err req.attempts
      (afterRequest cfg t2 gen req.err.isNone b1)

/-- Go: func (c *circuit) RoundTrip(req) of circuit_breaker.go.  Runs the
retry loop under breaker Execute, then closes the body when err is nil
(I/O only) and returns the pair (res, nil): whatever error Execute
produced is dropped. -/
def RoundTrip (cfg : BreakerConfig) (t1 t2 : Nat) (b : BreakerState) (env : Env)
    (retryMax : Nat) : ExecOutcome :=
  let r := Execute cfg t1 t2 b (runLoop env retryMax)
  ExecOutcome.mk r.resp none r.attempts r.breaker

/-- Whether the retry loop chooses to retry at attempt j (the shouldRetry
component of retryPolicy there). -/
def retryChosen (env : Env) (j : Nat) : Bool :=
  (retryPolicy (env.limiterAllow j) (env.ctxDone j) (env.transport j)).1

/- Concrete fixtures used by closed theorems below. -/

/-- The zero Settings value (everything defaulted, nil ReadyToTrip). -/
def settingsD : Settings := Settings.mk 0 0 0 none

/-- The configuration NewCircuitBreaker builds from settingsD. -/
def cfgD : BreakerConfig := (newCircuitBreaker settingsD 100).1

/-- The breaker fields immediately after newCircuitBreaker settingsD at
time 100. -/
def bD : BreakerState := (newCircuitBreaker settingsD 100).2

/-- A breaker sitting in the Open state with an unexpired timeout. -/
def bOpen : BreakerState := BreakerState.mk State.Open 3 (Counts.mk 0 0 0 0 0) 1000

/-- An environment whose transport always answers status 500 with no
transport error, with the limiter always granting and the context never
firing. -/
def env500 : Env :=
  Env.mk (fun _ => Except.ok (HttpResponse.mk 500)) (fun _ => true)
    (fun _ => false) (fun _ => false)

/-- An environment whose limiter denies every token while the transport
answers status 200. -/
def envDeny : Env :=
  Env.mk (fun _ => Except.ok (HttpResponse.mk 200)) (fun _ => false)
    (fun _ => false) (fun _ => false)

/-- An environment that always answers 500, with the context firing during
the backoff wait that follows attempt 1. -/
def envCancel : Env :=
  Env.mk (fun _ => Except.ok (HttpResponse.mk 500)) (fun _ => true)
    (fun _ => false) (fun k => k == 1)

/- Helper lemmas about the breaker state machine. -/

theorem toNewGeneration_generation (cfg : BreakerConfig) (now : Nat) (b : BreakerState) :
    (toNewGeneration cfg now b).generation = b.generation + 1 := rfl

theorem setState_generation_le (cfg : BreakerConfig) (s : State) (now : Nat)
    (b : BreakerState) : b.generation ≤ (setState cfg s now b).generation := by
  unfold setState
  split
  · exact Nat.le_refl _
  · exact Nat.le_succ _

theorem currentState_generation_le (cfg : BreakerConfig) (now : Nat) (b : BreakerState) :
    b.generation ≤ (currentState cfg now b).generation := by
  obtain ⟨st, g, c, e⟩ := b
  cases st with
  | Zero => exact Nat.le_refl _
  | HalfOpen => exact Nat.le_refl _
  | Open =>
    simp only [currentState]
    split
    · exact setState_generation_le cfg State.HalfOpen now (BreakerState.mk State.Open g c e)
    · exact Nat.le_refl _
  | Close =>
    simp only [currentState]
    split
    · exact Nat.le_succ _
    · exact Nat.le_refl _

theorem beforeRequest_generation (cfg : BreakerConfig) (now : Nat) (b : BreakerState) :
    (beforeRequest cfg now b).1.generation = (currentState cfg now b).generation := by
  simp only [beforeRequest]
  split
  · rfl
  · split <;> rfl

theorem onSuccess_generation_le (cfg : BreakerConfig) (st : State) (now : Nat)
    (b : BreakerState) : b.generation ≤ (BreakerState.onSuccess cfg st now b).generation := by
  cases st with
  | Zero => exact Nat.le_refl _
  | Open => exact Nat.le_refl _
  | Close => exact Nat.le_refl _
  | HalfOpen =>
    simp only [BreakerState.onSuccess]
    split
    · exact setState_generation_le cfg State.Close now
        { b with counts := b.counts.onSuccess }
    · exact Nat.le_refl _

theorem onFailure_generation_le (cfg : BreakerConfig) (st : State) (now : Nat)
    (b : BreakerState) : b.generation ≤ (BreakerState.onFailure cfg st now b).generation := by
  cases st with
  | Zero => exact Nat.le_refl _
  | Open => exact Nat.le_refl _
  | HalfOpen => exact setState_generation_le cfg State.Open now b
  | Close =>
    simp only [BreakerState.onFailure]
    split
    · exact setState_generation_le cfg State.Open now
        { b with counts := b.counts.onFailure }
    · exact Nat.le_refl _

theorem afterRequest_generation_le (cfg : BreakerConfig) (now before : Nat) (success : Bool)
    (b : BreakerState) : b.generation ≤ (afterRequest cfg now before success b).generation := by
  have h1 := currentState_generation_le cfg now b
  simp only [afterRequest]
  split
  · exact h1
  · split
    · exact Nat.le_trans h1 (onSuccess_generation_le _ _ _ _)
    · exact Nat.le_trans h1 (onFailure_generation_le _ _ _ _)

theorem stepOp_generation_le (cfg : BreakerConfig) (op : BreakerOp) (b : BreakerState) :
    b.generation ≤ (stepOp cfg op b).generation := by
  cases op with
  | before now =>
    have h := beforeRequest_generation cfg now b
    simp only [stepOp, h]
    exact currentState_generation_le cfg now b
  | after now g s => exact afterRequest_generation_le cfg now g s b

theorem runOps_generation_le (cfg : BreakerConfig) (ops : List BreakerOp) (b : BreakerState) :
    b.generation ≤ (runOps cfg ops b).generation := by
  induction ops generalizing b with
  | nil => exact Nat.le_refl _
  | cons op rest ih =>
    exact Nat.le_trans (stepOp_generation_le cfg op b) (ih (stepOp cfg op b))

/- Helper lemmas about the retry loop. -/

theorem loopAux_noretry (env : Env) (retryMax remain i : Nat)
    (h : retryChosen env i = false) :
    loopAux env retryMax remain i =
      LoopResult.mk (respOf (env.transport i))
        (errAfterCheck (retryPolicy (env.limiterAllow i) (env.ctxDone i) (env.transport i)).2
          (env.transport i)) (i + 1) := by
  unfold retryChosen at h
  rw [loopAux.eq_def, if_pos h]

theorem loopAux_retry_break (env : Env) (retryMax i : Nat)
    (h : retryChosen env i = true) :
    loopAux env retryMax 0 i =
      LoopResult.mk (respOf (env.transport i))
        (some (GoError.maxRetriesReached (retryMax + 1))) (i + 1) := by
  unfold retryChosen at h
  rw [loopAux.eq_def]
  simp [h]

theorem loopAux_retry_cancel (env : Env) (retryMax r i : Nat)
    (h : retryChosen env i = true) (hc : env.cancelDuringWait i = true) :
    loopAux env retryMax (r + 1) i = LoopResult.mk none (some GoError.ctxErr) (i + 1) := by
  unfold retryChosen at h
  rw [loopAux.eq_def]
  simp [h, hc]

theorem loopAux_retry_step (env : Env) (retryMax r i : Nat)
    (h : retryChosen env i = true) (hc : env.cancelDuringWait i = false) :
    loopAux env retryMax (r + 1) i = loopAux env retryMax r (i + 1) := by
  unfold retryChosen at h
  rw [loopAux.eq_def]
  simp [h, hc]

theorem loopAux_advance (env : Env) (retryMax : Nat) :
    ∀ d i remain,
      (∀ j, i ≤ j → j < i + d → retryChosen env j = true ∧ env.cancelDuringWait j = false) →
      d ≤ remain →
      loopAux env retryMax remain i = loopAux env retryMax (remain - d) (i + d) := by
  intro d
  induction d with
  | zero => intro i remain h hd; simp
  | succ e ih =>
    intro i remain h hd
    obtain ⟨r, rfl⟩ : ∃ r, remain = r + 1 := ⟨remain - 1, by omega⟩
    have hstep := h i (Nat.le_refl i) (by omega)
    rw [loopAux_retry_step env retryMax r i hstep.1 hstep.2]
    have h1 : r + 1 - (e + 1) = r - e := by omega
    have h2 : i + (e + 1) = i + 1 + e := by omega
    rw [h1, h2]
    exact ih (i + 1) r (fun j hj1 hj2 => h j (by omega) (by omega)) (by omega)

theorem loopAux_all500 (env : Env)
    (ht : ∀ k, env.transport k = Except.ok (HttpResponse.mk 500))
    (hl : ∀ k, env.limiterAllow k = true)
    (hc : ∀ k, env.ctxDone k = false)
    (hw : ∀ k, env.cancelDuringWait k = false) (retryMax : Nat) :
    ∀ remain i, loopAux env retryMax remain i =
      LoopResult.mk (some (HttpResponse.mk 500))
        (some (GoError.maxRetriesReached (retryMax + 1))) (i + remain + 1) := by
  intro remain
  induction remain with
  | zero =>
    intro i
    have h : retryChosen env i = true := by
      unfold retryChosen
      rw [ht i, hl i, hc i]
      decide
    rw [loopAux_retry_break env retryMax i h, ht i]
    rfl
  | succ r ih =>
    intro i
    have h : retryChosen env i = true := by
      unfold retryChosen
      rw [ht i, hl i, hc i]
      decide
    rw [loopAux_retry_step env retryMax r i h (hw i), ih (i + 1)]
    congr 1
    omega

theorem Execute_rejected (cfg : BreakerConfig) (t1 t2 : Nat) (b : BreakerState)
    (req : LoopResult) (e : GoError) (he : (beforeRequest cfg t1 b).2.2 = some e) :
    Execute cfg t1 t2 b req =
      ExecOutcome.mk none (some e) 0 (beforeRequest cfg t1 b).1 := by
  unfold Execute
  rcases hbe : beforeRequest cfg t1 b with ⟨b1, gen, eopt⟩
  rw [hbe] at he
  cases eopt with
  | none => exact absurd he (by simp)
  | some x =>
    have hx : x = e := by
      have : some x = some e := he
      injection this
    subst hx
    rfl

/- Claim theorems. -/

/-- Claim C1 (a code bug): the claim says a newly constructed Breaker
starts in the Closed state.  In the source, new(Breaker) leaves the int8
state field at its zero value and NewCircuitBreaker never assigns it, and
since the constants start at Open = iota + 1 that zero value is not Close.
This theorem evaluates the construction: both NewCircuitBreaker (on zero
Settings) and NewBreaker leave the state at State.Zero, which differs
from State.Close; moreover afterRequest with the current generation then
applies onSuccess and onFailure through their default switch branch, so
neither outcome changes the counts of a freshly built breaker — the
breaker can never trip. -/
theorem C1_new_breaker_starts_in_zero_state_not_close :
    (newCircuitBreaker settingsD 100).2.state = State.Zero ∧
    (NewBreaker 100).2.state = State.Zero ∧
    State.Zero ≠ State.Close ∧
    (afterRequest cfgD 100 bD.generation false bD).counts = bD.counts ∧
    (afterRequest cfgD 100 bD.generation true bD).counts = bD.counts := by
  decide

/-- Claim C2 counterexample: with RetryMax = 1 and a transport that always
answers 500, the retry loop does produce the giving-up error naming 2
attempts and breaker Execute returns it, but circuit RoundTrip returns the
error nil to its caller, so the giving-up error is not the error the
caller receives, contrary to the claim. -/
theorem C2_counterexample :
    (RoundTrip cfgD 100 101 bD env500 1).err ≠ some (GoError.maxRetriesReached 2) ∧
    (RoundTrip cfgD 100 101 bD env500 1).err = none ∧
    (Execute cfgD 100 101 bD (runLoop env500 1)).err = some (GoError.maxRetriesReached 2) ∧
    (runLoop env500 1).attempts = 2 := by
  decide

/-- Claim C2 (amended): with RetryMax = retryMax and a transport that
always returns a 500 response with no transport error (the limiter
granting every token and the context never firing), the retry loop
invokes the transport exactly retryMax + 1 times and returns the last 500
response together with the giving-up error naming retryMax + 1 attempts
to breaker Execute — but circuit RoundTrip then discards that error and
returns a nil error to its caller. -/
theorem C2_exhausted_budget_yields_giving_up_error (env : Env) (retryMax : Nat)
    (ht : ∀ k, env.transport k = Except.ok (HttpResponse.mk 500))
    (hl : ∀ k, env.limiterAllow k = true)
    (hc : ∀ k, env.ctxDone k = false)
    (hw : ∀ k, env.cancelDuringWait k = false) :
    runLoop env retryMax =
      LoopResult.mk (some (HttpResponse.mk 500))
        (some (GoError.maxRetriesReached (retryMax + 1))) (retryMax + 1) ∧
    ∀ cfg t1 t2 b, (RoundTrip cfg t1 t2 b env retryMax).err = none := by
  constructor
  · unfold runLoop
    rw [loopAux_all500 env ht hl hc hw retryMax retryMax 0]
    congr 1
    omega
  · intro cfg t1 t2 b
    rfl

/-- Witness for the amended C2 theorem at env500 and RetryMax = 1. -/
theorem C2_witness :
    runLoop env500 1 =
      LoopResult.mk (some (HttpResponse.mk 500)) (some (GoError.maxRetriesReached 2)) 2 ∧
    (RoundTrip cfgD 100 101 bD env500 1).err = none :=
  ⟨(C2_exhausted_budget_yields_giving_up_error env500 1 (fun _ => rfl) (fun _ => rfl)
      (fun _ => rfl) (fun _ => rfl)).1,
   (C2_exhausted_budget_yields_giving_up_error env500 1 (fun _ => rfl) (fun _ => rfl)
      (fun _ => rfl) (fun _ => rfl)).2 cfgD 100 101 bD⟩

/-- Claim C3: beforeRequest, after lazily resolving the effective state
against the clock: a resolved Open state returns ErrOpenState with the
breaker exactly as resolution left it (counts untouched); a resolved
HalfOpen state with Counts.Requests at or above maxRequests returns
ErrTooManyRequests; in every other case Counts.Requests is incremented by
exactly one with every other field unchanged, and the current generation
is returned with no error. -/
theorem C3_before_request_cases (cfg : BreakerConfig) (now : Nat) (b : BreakerState) :
    ((currentState cfg now b).state = State.Open →
      beforeRequest cfg now b =
        (currentState cfg now b, (currentState cfg now b).generation,
          some GoError.openState)) ∧
    ((currentState cfg now b).state = State.HalfOpen →
      cfg.maxRequests ≤ (currentState cfg now b).counts.requests →
      beforeRequest cfg now b =
        (currentState cfg now b, (currentState cfg now b).generation,
          some GoError.tooManyRequests)) ∧
    (¬ (currentState cfg now b).state = State.Open →
      ¬ ((currentState cfg now b).state = State.HalfOpen ∧
          cfg.maxRequests ≤ (currentState cfg now b).counts.requests) →
      beforeRequest cfg now b =
        ({ currentState cfg now b with
            counts := Counts.mk ((currentState cfg now b).counts.requests + 1)
              ((currentState cfg now b).counts.totalSuccesses)
              ((currentState cfg now b).counts.totalFailures)
              ((currentState cfg now b).counts.consecutiveSuccesses)
              ((currentState cfg now b).counts.consecutiveFailures) },
          (currentState cfg now b).generation, none)) := by
  refine ⟨fun h => ?_, fun h1 h2 => ?_, fun h1 h2 => ?_⟩
  · simp only [beforeRequest]
    rw [if_pos h]
  · have hno : ¬ (currentState cfg now b).state = State.Open := by
      rw [h1]
      exact fun hc => State.noConfusion hc
    simp only [beforeRequest]
    rw [if_neg hno, if_pos ⟨h1, h2⟩]
  · simp only [beforeRequest]
    rw [if_neg h1, if_neg h2]
    rfl

/-- Witness for C3 at a concrete Open breaker. -/
theorem C3_witness :
    (currentState cfgD 10 bOpen).state = State.Open ∧
    beforeRequest cfgD 10 bOpen =
      (currentState cfgD 10 bOpen, (currentState cfgD 10 bOpen).generation,
        some GoError.openState) :=
  ⟨by decide, (C3_before_request_cases cfgD 10 bOpen).1 (by decide)⟩

/-- Claim C4: afterRequest with a stale generation is a no-op beyond the
lazy time-based resolution: when the generation after re-resolution
differs from the one passed in, the breaker is returned exactly as the
re-resolution left it — state, generation, counts and expiry included —
for either outcome flag. -/
theorem C4_stale_generation_is_noop (cfg : BreakerConfig) (now before : Nat)
    (success : Bool) (b : BreakerState)
    (h : (currentState cfg now b).generation ≠ before) :
    afterRequest cfg now before success b = currentState cfg now b := by
  simp only [afterRequest]
  rw [if_pos h]

/-- Witness for C4 at a concrete breaker and a mismatched generation. -/
theorem C4_witness :
    (currentState cfgD 100 bD).generation ≠ 999 ∧
    afterRequest cfgD 100 999 true bD = currentState cfgD 100 bD :=
  ⟨by decide, C4_stale_generation_is_noop cfgD 100 999 true bD (by decide)⟩

/-- Claim C5: the generation counter increments by exactly one on every
new generation (hence on every counts-clear, which happens only inside
toNewGeneration) and on every actual state transition, every such
transition resets all five Counts fields to zero and recomputes expiry
for the new state, and across every sequence of
beforeRequest/afterRequest operations at arbitrary times the generation
never decreases. -/
theorem C5_generation_monotone_and_transitions_reset (cfg : BreakerConfig) :
    (∀ now b, (toNewGeneration cfg now b).generation = b.generation + 1 ∧
      (toNewGeneration cfg now b).counts = Counts.mk 0 0 0 0 0) ∧
    (∀ s now b, b.state ≠ s →
      (setState cfg s now b).generation = b.generation + 1 ∧
      (setState cfg s now b).counts = Counts.mk 0 0 0 0 0 ∧
      (setState cfg s now b).state = s ∧
      (setState cfg s now b).expiry =
        (match s with
         | State.Close => if cfg.interval = 0 then 0 else now + cfg.interval
         | State.Open => now + cfg.timeout
         | _ => 0)) ∧
    (∀ ops b, b.generation ≤ (runOps cfg ops b).generation) := by
  refine ⟨fun now b => ⟨rfl, rfl⟩, fun s now b h => ?_,
    fun ops b => runOps_generation_le cfg ops b⟩
  unfold setState
  rw [if_neg h]
  exact ⟨rfl, rfl, rfl, rfl⟩

/-- Witness for C5: a concrete transition out of the zero state. -/
theorem C5_witness :
    bD.state ≠ State.Open ∧
    ((setState cfgD State.Open 5 bD).generation = bD.generation + 1 ∧
     (setState cfgD State.Open 5 bD).counts = Counts.mk 0 0 0 0 0 ∧
     (setState cfgD State.Open 5 bD).state = State.Open ∧
     (setState cfgD State.Open 5 bD).expiry = 5 + cfgD.timeout) :=
  ⟨by decide,
   (C5_generation_monotone_and_transitions_reset cfgD).2.1 State.Open 5 bD (by decide)⟩

/-- Claim C6 counterexample: Counts with 100 requests, 99 failures, a
0.99 failure ratio and zero consecutive failures.  The claim says the
default trip predicate returns true on such counts; defaultReadyToTrip
(the predicate installed when Settings.ReadyToTrip is nil) returns false,
because it tests only ConsecutiveFailures > 5.  The failure-ratio rule
lives solely in the custom predicate that NewBreaker supplies, which does
return true here. -/
theorem C6_counterexample :
    defaultReadyToTrip (Counts.mk 100 1 99 1 0) = false ∧
    newBreakerReadyToTrip (Counts.mk 100 1 99 1 0) = true := by
  decide

/-- Claim C6 (amended): the default trip predicate used when no custom
ReadyToTrip is supplied returns true exactly when the consecutive-failure
count exceeds 5, and in particular always returns false when the
consecutive-failure count is zero, whatever the failure ratio; the
requests-at-least-3-and-ratio-at-least-0.6 rule is the separate custom
predicate that NewBreaker passes in its Settings. -/
theorem C6_default_trip_predicate (c : Counts) :
    (defaultReadyToTrip c = true ↔ 5 < c.consecutiveFailures) ∧
    (c.consecutiveFailures = 0 → defaultReadyToTrip c = false) ∧
    (newBreakerReadyToTrip c = true ↔
      3 ≤ c.requests ∧ 3 * c.requests ≤ 5 * c.totalFailures) := by
  refine ⟨?_, ?_, ?_⟩
  · simp [defaultReadyToTrip]
  · intro h
    simp [defaultReadyToTrip, h]
  · simp [newBreakerReadyToTrip]

/-- Witness for C6 at the counterexample counts. -/
theorem C6_witness :
    (Counts.mk 100 1 99 1 0).consecutiveFailures = 0 ∧
    defaultReadyToTrip (Counts.mk 100 1 99 1 0) = false :=
  ⟨rfl, (C6_default_trip_predicate (Counts.mk 100 1 99 1 0)).2.1 rfl⟩

/-- Claim C7 counterexample: an environment whose limiter denies the very
first token while the transport answers 200.  The claim says a limiter
denial happens without the attempt being issued to the transport; in the
source the limiter is only consulted inside retryPolicy, after the
transport call, so the loop reports one transport invocation and even
carries the transport's response alongside the rate-limit error. -/
theorem C7_counterexample :
    (runLoop envDeny 4).attempts = 1 ∧
    (runLoop envDeny 4).err = some GoError.rateLimitExceeded ∧
    (runLoop envDeny 4).resp = some (HttpResponse.mk 200) := by
  decide

/-- Claim C7 (amended): when the rate limiter denies a token at loop
index i, the denial is detected in retryPolicy after the transport was
already invoked for that attempt; the loop then fails fast exactly as for
a breaker rejection: it returns the rate-limit-exceeded error immediately
with that attempt's response, with no backoff wait and no further
transport invocation — the total transport count is i + 1, the denied
attempt included. -/
theorem C7_limiter_denial_fails_fast (env : Env) (retryMax remain i : Nat)
    (hdeny : env.limiterAllow i = false) :
    loopAux env retryMax remain i =
      LoopResult.mk (respOf (env.transport i)) (some GoError.rateLimitExceeded) (i + 1) := by
  have h : retryChosen env i = false := by
    unfold retryChosen
    rw [hdeny]
    rfl
  rw [loopAux_noretry env retryMax remain i h]
  unfold retryPolicy
  rw [hdeny]
  rfl

/-- Witness for the amended C7 theorem: the denial environment from the
loop start. -/
theorem C7_witness :
    envDeny.limiterAllow 0 = false ∧
    loopAux envDeny 4 4 0 =
      LoopResult.mk (some (HttpResponse.mk 200)) (some GoError.rateLimitExceeded) 1 :=
  ⟨rfl, C7_limiter_denial_fails_fast envDeny 4 4 0 rfl⟩

/-- Claim C9: if the context fires during the backoff wait that follows
attempt k (every earlier and the current classification having chosen to
retry, no earlier wait cancelled, and budget remaining), the retry loop
returns (nil, the context's error) immediately: exactly the k + 1
transport invocations performed before the cancellation happen and no
further attempt is issued. -/
theorem C9_cancel_during_wait_freezes_attempts (env : Env) (retryMax k : Nat)
    (hk : k < retryMax)
    (hretry : ∀ j, j ≤ k → retryChosen env j = true)
    (hnc : ∀ j, j < k → env.cancelDuringWait j = false)
    (hck : env.cancelDuringWait k = true) :
    runLoop env retryMax = LoopResult.mk none (some GoError.ctxErr) (k + 1) := by
  unfold runLoop
  rw [loopAux_advance env retryMax k 0 retryMax
    (fun j hj1 hj2 => ⟨hretry j (by omega), hnc j (by omega)⟩) (by omega)]
  obtain ⟨m, hm⟩ : ∃ m, retryMax - k = m + 1 := ⟨retryMax - k - 1, by omega⟩
  rw [hm, Nat.zero_add]
  exact loopAux_retry_cancel env retryMax m k (hretry k (Nat.le_refl k)) hck

/-- Witness for C9: cancellation during the wait after attempt 1 of 5. -/
theorem C9_witness :
    envCancel.cancelDuringWait 1 = true ∧
    runLoop envCancel 4 = LoopResult.mk none (some GoError.ctxErr) 2 :=
  ⟨rfl,
   C9_cancel_during_wait_freezes_attempts envCancel 4 1 (by omega)
     (fun j hj => rfl)
     (fun j hj => by
       have h0 : j = 0 := by omega
       subst h0
       rfl)
     rfl⟩

/-- Claim C10: circuit RoundTrip always returns a nil error: whatever
breaker Execute produces — a circuit-open or too-many-requests rejection,
a retries-exhausted failure, anything — the error is discarded and the
pair (response from Execute, nil) is returned; in particular a breaker
rejection yields a nil response together with the nil error, with the
transport never invoked. -/
theorem C10_round_trip_always_returns_nil_error (cfg : BreakerConfig) (t1 t2 : Nat)
    (b : BreakerState) (env : Env) (retryMax : Nat) :
    (RoundTrip cfg t1 t2 b env retryMax).err = none ∧
    (RoundTrip cfg t1 t2 b env retryMax).resp =
      (Execute cfg t1 t2 b (runLoop env retryMax)).resp ∧
    (∀ e, (beforeRequest cfg t1 b).2.2 = some e →
      (RoundTrip cfg t1 t2 b env retryMax).resp = none ∧
      (RoundTrip cfg t1 t2 b env retryMax).attempts = 0) := by
  refine ⟨rfl, rfl, fun e he => ?_⟩
  have hE := Execute_rejected cfg t1 t2 b (runLoop env retryMax) e he
  unfold RoundTrip
  rw [hE]
  exact ⟨rfl, rfl⟩

/-- Witness for C10 at a concrete Open breaker: the rejection reaches the
caller as (nil response, nil error) with zero transport invocations. -/
theorem C10_witness :
    (beforeRequest cfgD 10 bOpen).2.2 = some GoError.openState ∧
    (RoundTrip cfgD 10 11 bOpen env500 4).err = none ∧
    (RoundTrip cfgD 10 11 bOpen env500 4).resp = none ∧
    (RoundTrip cfgD 10 11 bOpen env500 4).attempts = 0 :=
  ⟨by decide,
   (C10_round_trip_always_returns_nil_error cfgD 10 11 bOpen env500 4).1,
   ((C10_round_trip_always_returns_nil_error cfgD 10 11 bOpen env500 4).2.2
     GoError.openState (by decide)).1,
   ((C10_round_trip_always_returns_nil_error cfgD 10 11 bOpen env500 4).2.2
     GoError.openState (by decide)).2⟩

end GCB
